import Mathlib

/-!
Shallow embedding of `src/print_ids/src/execas.c`.

The C program is:

    int main()
    {
        uid_t ruid, euid;
        ruid = getuid();
        euid = geteuid();
        printf("real: %d effective: %d\n", ruid, euid);
        return 0;
    }

On the target platform `uid_t` is an unsigned 32-bit integer.  The two
identifiers are ambient process state supplied by the OS; we model them as
natural numbers below `2^32`.  `printf`'s `%d` conversion reads the argument
as a signed 32-bit `int`, so a uid is rendered through its two's-complement
reinterpretation; we model `%d` by `fmtD` below, following the C library's
documented behaviour (decimal, no leading zeros, `-` sign for negatives).

The body of `main` is embedded as a list of statements (`program`) executed
by `runProg`, which also records the trace of observable events; `main_run`
projects the output and exit status from that execution.  Variants
`main_io` (an output stream that can be broken), `main_world` (ambient
world state: credentials, files, network) and `main_full` (argument vector
and environment, which `int main()` never reads) expose the frame and
independence properties of the same body.
-/

namespace Execas

/-- Modulus of the platform's `uid_t` (unsigned 32-bit). -/
def uidMod : Nat := 2 ^ 32

/-- Least uid whose signed 32-bit reinterpretation is negative. -/
def intHalf : Nat := 2 ^ 31

/-- Reinterpretation of an unsigned 32-bit value as a signed 32-bit `int`,
as happens when a `uid_t` is read by `printf` under a `%d` conversion. -/
def asInt32 (u : Nat) : Int :=
  if u < intHalf then (u : Int) else (u : Int) - (uidMod : Int)

/-- The C library's `%d` conversion: decimal rendering of a signed integer,
minus sign for negative values, no leading zeros, no padding. -/
def fmtD (i : Int) : String :=
  if i < 0 then "-" ++ Nat.repr i.natAbs else Nat.repr i.natAbs

/-- How one uid argument appears in the program's output: the `%d`
rendering of its signed 32-bit reinterpretation. -/
def renderUid (u : Nat) : String :=
  fmtD (asInt32 u)

/-- The bytes produced by `printf("real: %d effective: %d\n", ruid, euid)`. -/
def formatLine (r e : Nat) : String :=
  "real: " ++ renderUid r ++ " effective: " ++ renderUid e ++ "\n"

/-- Ambient process identity as reported by the OS: the real and effective
user ids (`getuid()` and `geteuid()` results). -/
structure ProcState where
  ruid : Nat
  euid : Nat
deriving DecidableEq

/-- Observable events of a run. -/
inductive Event where
  | queryReal
  | queryEffective
  | writeOut (s : String)
  | exitWith (c : Nat)
deriving DecidableEq, BEq

/-- The local variables of `main` (`uid_t ruid, euid;`), unset before the
corresponding assignment. -/
structure Locals where
  ruid : Option Nat
  euid : Option Nat

/-- The statements of `main`, in source order. -/
inductive Stmt where
  | assignRuid
  | assignEuid
  | printLine
  | returnZero

/-- The body of `main`: `ruid = getuid(); euid = geteuid(); printf(...);
return 0;`. -/
def program : List Stmt :=
  [Stmt.assignRuid, Stmt.assignEuid, Stmt.printLine, Stmt.returnZero]

/-- One statement: its effect on the locals and the events it emits. -/
def runStmt (s : ProcState) (l : Locals) : Stmt → Locals × List Event
  | Stmt.assignRuid => ({ l with ruid := some s.ruid }, [Event.queryReal])
  | Stmt.assignEuid => ({ l with euid := some s.euid }, [Event.queryEffective])
  | Stmt.printLine =>
      (l, [Event.writeOut (formatLine (l.ruid.getD 0) (l.euid.getD 0))])
  | Stmt.returnZero => (l, [Event.exitWith 0])

/-- Sequential execution of a statement list. -/
def runProg (s : ProcState) : Locals → List Stmt → Locals × List Event
  | l, [] => (l, [])
  | l, st :: rest =>
      let r₁ := runStmt s l st
      let r₂ := runProg s r₁.1 rest
      (r₂.1, r₁.2 ++ r₂.2)

/-- The event trace of one run of `main`. -/
def main_trace (s : ProcState) : List Event :=
  (runProg s ⟨none, none⟩ program).2

/-- Bytes written to standard output along a trace. -/
def outputOf (tr : List Event) : String :=
  tr.foldl (fun acc ev => match ev with
    | Event.writeOut str => acc ++ str
    | _ => acc) ""

/-- Exit status reported by a trace (0 when no exit event occurs). -/
def exitOf (tr : List Event) : Nat :=
  tr.foldl (fun acc ev => match ev with
    | Event.exitWith c => c
    | _ => acc) 0

/-- Result of one run: bytes on standard output and exit status. -/
structure RunResult where
  stdout : String
  exitCode : Nat
deriving DecidableEq

/-- One run of `main` over ambient identity `s`. -/
def main_run (s : ProcState) : RunResult :=
  { stdout := outputOf (main_trace s), exitCode := exitOf (main_trace s) }

/-- An output stream; `broken` models a closed descriptor or broken pipe. -/
structure OutStream where
  buf : String
  broken : Bool

/-- Writing to a stream: on a broken stream nothing is written and the
error result `-1` is returned; otherwise the bytes are appended and the
count of bytes written is returned (as `printf` does). -/
def writeStr (o : OutStream) (str : String) : OutStream × Int :=
  if o.broken then (o, -1)
  else ({ o with buf := o.buf ++ str }, (str.length : Int))

/-- `main` against an explicit output stream.  The value returned by the
write (`printf`'s result) is discarded: the C code never inspects it, and
`return 0` follows unconditionally. -/
def main_io (s : ProcState) (o : OutStream) : OutStream × Nat :=
  let wr := writeStr o (formatLine s.ruid s.euid)
  (wr.1, 0)

/-- Ambient world state around the process: its credentials, the file
system, the network, and the bytes on standard output. -/
structure World where
  ruid : Nat
  euid : Nat
  stdoutBuf : String
  files : List (String × String)
  network : List String

/-- One run of `main` as a transformer of the ambient world: the only
component it touches is the standard-output buffer. -/
def main_world (w : World) : World × Nat :=
  ({ w with stdoutBuf := w.stdoutBuf ++ formatLine w.ruid w.euid }, 0)

/-- `main` seen with the process's argument vector and environment in
scope.  The C signature is `int main()`: neither is ever read. -/
def main_full (s : ProcState) (args : List String)
    (env : List (String × String)) : RunResult :=
  main_run s

/-! Auxiliary lemmas about decimal rendering. -/

theorem digitChar_isDigit {d : Nat} (h : d < 10) : (Nat.digitChar d).isDigit := by
  interval_cases d <;> decide

theorem digitChar_ne_zero {d : Nat} (h : d < 10) (h0 : d ≠ 0) :
    Nat.digitChar d ≠ '0' := by
  interval_cases d <;> simp_all <;> decide

theorem toDigitsCore_isDigit : ∀ (fuel n : Nat) (acc : List Char),
    (∀ c ∈ acc, c.isDigit) → ∀ c ∈ Nat.toDigitsCore 10 fuel n acc, c.isDigit := by
  intro fuel
  induction fuel with
  | zero =>
    intro n acc hacc c hc
    rw [Nat.toDigitsCore] at hc
    exact hacc c hc
  | succ f ih =>
    intro n acc hacc c hc
    rw [Nat.toDigitsCore] at hc
    by_cases hn : n / 10 = 0
    · simp only [hn, if_pos] at hc
      rcases List.mem_cons.mp hc with h1 | h1
      · subst h1; exact digitChar_isDigit (Nat.mod_lt _ (by norm_num))
      · exact hacc c h1
    · simp only [hn, if_neg, if_false] at hc
      refine ih (n / 10) _ ?_ c hc
      intro c hc2
      rcases List.mem_cons.mp hc2 with h1 | h1
      · subst h1; exact digitChar_isDigit (Nat.mod_lt _ (by norm_num))
      · exact hacc c h1

theorem toDigitsCore_head_ne_zero : ∀ (fuel n : Nat) (acc : List Char),
    n ≠ 0 → n ≤ fuel → (Nat.toDigitsCore 10 fuel n acc).head? ≠ some '0' := by
  intro fuel
  induction fuel with
  | zero => intro n acc hn hle; omega
  | succ f ih =>
    intro n acc hn hle
    rw [Nat.toDigitsCore]
    by_cases hdiv : n / 10 = 0
    · simp only [hdiv, if_pos, List.head?_cons]
      have hlt : n < 10 := by omega
      have hmod : n % 10 = n := Nat.mod_eq_of_lt hlt
      rw [hmod]
      intro hcontra
      exact digitChar_ne_zero hlt hn (Option.some.inj hcontra)
    · simp only [hdiv, if_neg, if_false]
      refine ih (n / 10) _ hdiv ?_
      have : n / 10 < n := Nat.div_lt_self (by omega) (by norm_num)
      omega

theorem toDigitsCore_ne_nil : ∀ (fuel n : Nat) (acc : List Char),
    acc ≠ [] ∨ fuel ≠ 0 → Nat.toDigitsCore 10 fuel n acc ≠ [] := by
  intro fuel
  induction fuel with
  | zero =>
    intro n acc h
    rw [Nat.toDigitsCore]
    rcases h with h | h
    · exact h
    · omega
  | succ f ih =>
    intro n acc h
    rw [Nat.toDigitsCore]
    by_cases hdiv : n / 10 = 0
    · simp [hdiv]
    · simp only [hdiv, if_neg, if_false]
      exact ih (n / 10) _ (Or.inl (by simp))

theorem repr_isDigit (n : Nat) : ∀ c ∈ (Nat.repr n).data, c.isDigit := by
  intro c hc
  exact toDigitsCore_isDigit (n + 1) n [] (by simp) c hc

theorem repr_ne_nil (n : Nat) : (Nat.repr n).data ≠ [] :=
  toDigitsCore_ne_nil (n + 1) n [] (Or.inr (by omega))

theorem repr_head_ne_zero (n : Nat) (hn : n ≠ 0) :
    (Nat.repr n).data.head? ≠ some '0' :=
  toDigitsCore_head_ne_zero (n + 1) n [] hn (by omega)

/-! Auxiliary lemmas about `renderUid` and `formatLine`. -/

theorem dash_append_data (s : String) : ("-" ++ s).data = '-' :: s.data := by
  rw [String.data_append]
  rfl

theorem renderUid_small (u : Nat) (h : u < intHalf) : renderUid u = Nat.repr u := by
  unfold renderUid fmtD asInt32
  rw [if_pos h, if_neg (by omega)]
  simp

theorem renderUid_large (u : Nat) (h1 : intHalf ≤ u) (h2 : u < uidMod) :
    renderUid u = "-" ++ Nat.repr (uidMod - u) := by
  have hm : uidMod = 4294967296 := by norm_num [uidMod]
  have hh : intHalf = 2147483648 := by norm_num [intHalf]
  unfold renderUid fmtD asInt32
  rw [if_neg (show ¬ (u < intHalf) from by omega)]
  rw [if_pos (show (u : Int) - (uidMod : Int) < 0 from by omega)]
  have habs : ((u : Int) - (uidMod : Int)).natAbs = uidMod - u := by omega
  rw [habs]

theorem renderUid_chars (u : Nat) : ∀ c ∈ (renderUid u).data, c.isDigit ∨ c = '-' := by
  intro c hc
  unfold renderUid fmtD at hc
  split at hc
  · rw [dash_append_data] at hc
    rcases List.mem_cons.mp hc with h1 | h1
    · right; exact h1
    · left; exact repr_isDigit _ c h1
  · left; exact repr_isDigit _ c hc

theorem renderUid_ne_nil (u : Nat) : (renderUid u).data ≠ [] := by
  unfold renderUid fmtD
  split
  · rw [dash_append_data]; simp
  · exact repr_ne_nil _

theorem renderUid_count_newline (u : Nat) : (renderUid u).data.count '\n' = 0 := by
  rw [List.count_eq_zero]
  intro hmem
  rcases renderUid_chars u _ hmem with h | h
  · exact absurd h (by decide)
  · exact absurd h (by decide)

theorem main_run_stdout (s : ProcState) :
    (main_run s).stdout = formatLine s.ruid s.euid := rfl

theorem formatLine_data (r e : Nat) :
    (formatLine r e).data
      = ("real: ".data ++ (renderUid r).data
          ++ (" effective: ".data ++ (renderUid e).data)) ++ ['\n'] := by
  have hnl : ("\n" : String).data = ['\n'] := rfl
  simp [formatLine, String.data_append, List.append_assoc, hnl]

/-! Claim theorems. -/

/-- C1 (amended): for every ambient state with real id `r` and effective id
`e` (both below `2^32`), the program writes exactly the single line
`real: <r'> effective: <e'>\n`, where `<r'>` and `<e'>` are the `%d`
renderings of `r` and `e` — equal to the decimal of `r` and `e` whenever
both are below `2^31` — with the real id first, the separator
` effective: ` between them, exactly one newline (the final character),
and no leading whitespace. -/
theorem line_format (r e : Nat) (hr : r < uidMod) (he : e < uidMod) :
    (main_run ⟨r, e⟩).stdout
        = "real: " ++ renderUid r ++ " effective: " ++ renderUid e ++ "\n"
    ∧ (main_run ⟨r, e⟩).stdout.data.count '\n' = 1
    ∧ (main_run ⟨r, e⟩).stdout.data.getLast? = some '\n'
    ∧ (main_run ⟨r, e⟩).stdout.data.head? = some 'r'
    ∧ (r < intHalf → e < intHalf →
        (main_run ⟨r, e⟩).stdout
          = "real: " ++ Nat.repr r ++ " effective: " ++ Nat.repr e ++ "\n") := by
  have hrun : (main_run ⟨r, e⟩).stdout = formatLine r e := rfl
  refine ⟨rfl, ?_, ?_, ?_, ?_⟩
  · rw [hrun, formatLine_data]
    simp only [List.count_append, renderUid_count_newline]
    decide
  · rw [hrun, formatLine_data]
    exact List.getLast?_concat _
  · rfl
  · intro h1 h2
    rw [hrun]
    show "real: " ++ renderUid r ++ " effective: " ++ renderUid e ++ "\n" = _
    rw [renderUid_small r h1, renderUid_small e h2]

/-- Witness for the amended C1 at `r = 1001`, `e = 5`. -/
theorem line_format_witness :
    (main_run ⟨1001, 5⟩).stdout = "real: 1001 effective: 5\n"
    ∧ (main_run ⟨1001, 5⟩).stdout.data.count '\n' = 1 := by
  have h := line_format 1001 5 (by decide) (by decide)
  refine ⟨?_, h.2.1⟩
  rw [h.2.2.2.2 (by decide) (by decide)]
  decide

/-- Counterexample to C1 as stated: with real id `2^31 = 2147483648` the
program prints `-2147483648`, not the id's decimal value. -/
theorem line_format_cex :
    (main_run ⟨2147483648, 1000⟩).stdout = "real: -2147483648 effective: 1000\n"
    ∧ ¬ (main_run ⟨2147483648, 1000⟩).stdout
        = "real: 2147483648 effective: 1000\n" :=
  ⟨by decide, by decide⟩

/-- C2: with real and effective ids both 1000 the output is exactly
`real: 1000 effective: 1000\n` and the exit code is 0; with real id 1000
and effective id 0 the output is exactly `real: 1000 effective: 0\n` and
the exit code is 0. -/
theorem scenario_outputs :
    main_run ⟨1000, 1000⟩ = ⟨"real: 1000 effective: 1000\n", 0⟩
    ∧ main_run ⟨1000, 0⟩ = ⟨"real: 1000 effective: 0\n", 0⟩ :=
  ⟨by decide, by decide⟩

/-- C3 (amended): every uid below `2^31` is rendered as its exact base-10
decimal value with no leading zeros; a uid of at least `2^31` is rendered
as a negative decimal (leading `-`, then the decimal of `2^32 - u` with no
leading zeros), its two's-complement reinterpretation, not its actual
value; the rendering is never empty. -/
theorem decimal_rendering (u : Nat) (hu : u < uidMod) :
    (u < intHalf →
        renderUid u = Nat.repr u
        ∧ (u ≠ 0 → (renderUid u).data.head? ≠ some '0'))
    ∧ (intHalf ≤ u →
        (renderUid u).data.head? = some '-'
        ∧ (renderUid u).data.tail.head? ≠ some '0')
    ∧ (renderUid u).data ≠ [] := by
  have hm : uidMod = 4294967296 := by norm_num [uidMod]
  refine ⟨?_, ?_, renderUid_ne_nil u⟩
  · intro h
    refine ⟨renderUid_small u h, ?_⟩
    intro h0
    rw [renderUid_small u h]
    exact repr_head_ne_zero u h0
  · intro h
    rw [renderUid_large u h hu, dash_append_data]
    refine ⟨rfl, ?_⟩
    exact repr_head_ne_zero _ (by omega)

/-- Witness for the amended C3 at `u = 4096`. -/
theorem decimal_rendering_witness :
    renderUid 4096 = Nat.repr 4096
    ∧ (renderUid 4096).data.head? ≠ some '0' := by
  have h := decimal_rendering 4096 (by decide)
  exact ⟨(h.1 (by decide)).1, (h.1 (by decide)).2 (by decide)⟩

/-- Counterexample to C3 as stated: uid `4294967295 = 2^32 - 1` is rendered
`-1`, which does not denote the value the OS reported. -/
theorem decimal_rendering_cex :
    renderUid 4294967295 = "-1"
    ∧ ¬ renderUid 4294967295 = Nat.repr 4294967295 :=
  ⟨by decide, by decide⟩

/-- C4: when the output stream is broken, the write has no effect and its
error result is discarded: the program still terminates with exit status 0
and the stream is left as it was. -/
theorem broken_write_ignored (s : ProcState) (o : OutStream)
    (hb : o.broken = true) :
    (main_io s o).1 = o ∧ (main_io s o).2 = 0 := by
  simp [main_io, writeStr, hb]

/-- Witness for C4 on a broken stream. -/
theorem broken_write_ignored_witness :
    (main_io ⟨7, 7⟩ ⟨"", true⟩).1 = ⟨"", true⟩
    ∧ (main_io ⟨7, 7⟩ ⟨"", true⟩).2 = 0 :=
  broken_write_ignored ⟨7, 7⟩ ⟨"", true⟩ rfl

/-- C5: every run exits with status 0, whatever the ambient identity and
whatever the state of the output stream. -/
theorem exit_status_zero (s : ProcState) (o : OutStream) :
    (main_run s).exitCode = 0 ∧ (main_io s o).2 = 0 :=
  ⟨rfl, rfl⟩

/-- C6: the program is deterministic — two runs over ambient states that
report the same real and effective ids produce identical results (same
bytes on standard output, same exit status). -/
theorem deterministic (s₁ s₂ : ProcState)
    (hr : s₁.ruid = s₂.ruid) (he : s₁.euid = s₂.euid) :
    main_run s₁ = main_run s₂ := by
  have hs : s₁ = s₂ := by
    cases s₁
    cases s₂
    rw [ProcState.mk.injEq]
    exact ⟨hr, he⟩
  rw [hs]

/-- Witness for C6 at ids 42 and 0. -/
theorem deterministic_witness :
    main_run ⟨42, 0⟩ = main_run ⟨42, 0⟩ :=
  deterministic ⟨42, 0⟩ ⟨42, 0⟩ rfl rfl

/-- C7: the result does not depend on the argument vector or the
environment — any two runs with the same ambient identity but arbitrary
differing arguments and environments coincide. -/
theorem args_env_independent (s : ProcState) (a₁ a₂ : List String)
    (e₁ e₂ : List (String × String)) :
    main_full s a₁ e₁ = main_full s a₂ e₂ := rfl

/-- C8: the only side effect is the single append to standard output —
the run leaves the process credentials, the file system and the network
exactly as they were, and exits 0. -/
theorem frame_stdout_only (w : World) :
    (main_world w).1.ruid = w.ruid
    ∧ (main_world w).1.euid = w.euid
    ∧ (main_world w).1.files = w.files
    ∧ (main_world w).1.network = w.network
    ∧ (main_world w).1.stdoutBuf = w.stdoutBuf ++ formatLine w.ruid w.euid
    ∧ (main_world w).2 = 0 :=
  ⟨rfl, rfl, rfl, rfl, rfl, rfl⟩

/-- C9: every execution is the fixed linear sequence query-real,
query-effective, write, exit; each identity query occurs exactly once in
the trace. -/
theorem trace_linear (s : ProcState) :
    main_trace s
        = [Event.queryReal, Event.queryEffective,
            Event.writeOut (formatLine s.ruid s.euid), Event.exitWith 0]
    ∧ (main_trace s).count Event.queryReal = 1
    ∧ (main_trace s).count Event.queryEffective = 1 :=
  ⟨rfl, rfl, rfl⟩

/-- C10: a uid of at least `2^31` (on the 32-bit unsigned uid platform) is
printed as the negative decimal of its two's-complement reinterpretation
as a signed 32-bit int; a uid below `2^31` is printed as its exact value. -/
theorem signed_wraparound (u : Nat) (hu : u < uidMod) :
    (intHalf ≤ u → renderUid u = "-" ++ Nat.repr (uidMod - u))
    ∧ (u < intHalf → renderUid u = Nat.repr u) :=
  ⟨fun h => renderUid_large u h hu, fun h => renderUid_small u h⟩

/-- Witness for C10 at `u = 2^31`. -/
theorem signed_wraparound_witness :
    renderUid 2147483648 = "-2147483648" := by
  have h := (signed_wraparound 2147483648 (by decide)).1 (by decide)
  rw [h]
  decide

end Execas
